import Mathlib

/-!
Verification of the openvpn3-linux logging core: the metadata model
(`LogMetaDataValue`, `LogMetaData`), the writer backends
(`StreamLogWriter`, `ColourStreamWriter`, `SyslogWriter`, `JournaldWriter`
from src/log/logwriter.cpp and src/log/logwriter.hpp) and the signal
emission layer (`BackendSignals`, `Backend::Signals::RegistrationRequest`
from src/client/backend-signals.hpp), all shallowly embedded in Lean:
pure functions become Lean functions, the mutable writer state becomes
explicit state passing, and each output destination (stream, syslog,
journal) becomes an explicit value returned next to the new state.
-/

/-- Modelled from the spec: `LogTag` (src/log/logtag.hpp is not part of
the sources given).  The spec describes tag objects as shared read-only
values with a pure rendering function `Render(encapsulated bool) -> string`
and records that a `LogTag` carries an `encaps` flag used by the display
rendering.  A default-constructed tag (used by the literal-string
constructor of `LogMetaDataValue`) is modelled by `LogTag.default`. -/
structure LogTag where
  render : Bool → String
  encaps : Bool

/-- Modelled from the spec: a default-constructed `LogTag`, rendering to
the empty string. -/
def LogTag.default : LogTag := ⟨fun _ => "", true⟩

/-- `LogTag::str(bool)`: the tag's textual form, encapsulated or plain. -/
def LogTag.str (t : LogTag) (encaps : Bool) : String := t.render encaps

/-- `LogMetaDataValue::Type` (src/log/logwriter.hpp). -/
inductive LMDVType where
  | LOGMETA_STRING
  | LOGMETA_LOGTAG
deriving DecidableEq

/-- `LogMetaDataValue` (src/log/logwriter.hpp): one labelled piece of
metadata, either a literal string or a reference to a `LogTag`. -/
structure LogMetaDataValue where
  type : LMDVType
  label : String
  str_value : String
  logtag : LogTag
  skip : Bool

/-- The string constructor `LogMetaDataValue(l, v, s)`
(src/log/logwriter.cpp lines 49-54): stores the literal, a
default-constructed tag, and sets the type to `LOGMETA_STRING`. -/
def LogMetaDataValue.mkString (l v : String) (s : Bool) : LogMetaDataValue :=
  { type := .LOGMETA_STRING, label := l, str_value := v,
    logtag := LogTag.default, skip := s }

/-- The tag constructor `LogMetaDataValue(l, v, s)`
(src/log/logwriter.cpp lines 57-62): stores an empty literal, the tag
reference, and sets the type to `LOGMETA_LOGTAG`. -/
def LogMetaDataValue.mkTag (l : String) (v : LogTag) (s : Bool) : LogMetaDataValue :=
  { type := .LOGMETA_LOGTAG, label := l, str_value := "",
    logtag := v, skip := s }

/-- `LogMetaDataValue::GetValue(bool)` (src/log/logwriter.cpp lines
64-75): the literal for string values, the rendered tag otherwise.
The C++ default for `logtag_encaps` is `true`; calls through the default
pass `true` explicitly here. -/
def LogMetaDataValue.GetValue (mdv : LogMetaDataValue) (logtag_encaps : Bool) : String :=
  match mdv.type with
  | .LOGMETA_STRING => mdv.str_value
  | .LOGMETA_LOGTAG => mdv.logtag.str logtag_encaps

/-- The per-value display rendering `operator<<(std::ostream&,
LogMetaDataValue)` (src/log/logwriter.hpp lines 63-70): nothing when
`skip` is set, else `label=value` with the tag's own `encaps` flag. -/
def LogMetaDataValue.display (mdv : LogMetaDataValue) : String :=
  if mdv.skip then "" else mdv.label ++ "=" ++ mdv.GetValue mdv.logtag.encaps

/-- `LogMetaData` (src/log/logwriter.hpp): an insertion-ordered sequence
of metadata values. -/
structure LogMetaData where
  metadata : List LogMetaDataValue

/-- A freshly constructed, empty `LogMetaData`. -/
def LogMetaData.mk0 : LogMetaData := ⟨[]⟩

/-- `LogMetaData::AddMeta` for the string overload
(src/log/logwriter.hpp lines 98-103): appends at the end. -/
def LogMetaData.AddMetaStr (md : LogMetaData) (l v : String) (skip : Bool) : LogMetaData :=
  ⟨md.metadata ++ [LogMetaDataValue.mkString l v skip]⟩

/-- `LogMetaData::AddMeta` for the `LogTag` overload
(src/log/logwriter.hpp lines 98-103): appends at the end. -/
def LogMetaData.AddMetaTag (md : LogMetaData) (l : String) (v : LogTag) (skip : Bool) : LogMetaData :=
  ⟨md.metadata ++ [LogMetaDataValue.mkTag l v skip]⟩

/-- `LogMetaData::GetMetaValue(l, encaps_logtag, postfix)`
(src/log/logwriter.cpp lines 82-96): linear scan (`std::find_if`) for the
first entry whose label equals `l`; empty string when none matches, else
the entry's value followed by the postfix.  The C++ declaration
(src/log/logwriter.hpp lines 106-107) defaults `encaps_logtag` to `true`
and the postfix to a single space; callers relying on those defaults pass
them explicitly here. -/
def LogMetaData.GetMetaValue (md : LogMetaData) (l : String)
    (encaps_logtag : Bool) (pfix : String) : String :=
  match md.metadata.find? (fun e => l == e.label) with
  | none => ""
  | some e => e.GetValue encaps_logtag ++ pfix

/-- `LogMetaData::GetMetaDataRecords(upcase_label, logtag_encaps)`
(src/log/logwriter.cpp lines 99-121): one `label=value` record per entry,
in order, upcasing the label when asked; tag values are rendered with
`logtag_encaps`, string values through the `GetValue` default (`true`).
The loop has no test of the `skip` flag. -/
def LogMetaData.GetMetaDataRecords (md : LogMetaData)
    (upcase_label logtag_encaps : Bool) : List String :=
  md.metadata.map (fun mdc =>
    let label := if upcase_label then mdc.label.toUpper else mdc.label
    match mdc.type with
    | .LOGMETA_LOGTAG => label ++ "=" ++ mdc.GetValue logtag_encaps
    | .LOGMETA_STRING => label ++ "=" ++ mdc.GetValue true)

/-- `LogMetaData::size()` (src/log/logwriter.cpp lines 124-127). -/
def LogMetaData.size (md : LogMetaData) : Nat := md.metadata.length

/-- `LogMetaData::empty()` (src/log/logwriter.cpp lines 130-133). -/
def LogMetaData.empty (md : LogMetaData) : Bool := md.metadata.isEmpty

/-- `LogMetaData::clear()` (src/log/logwriter.cpp lines 136-139). -/
def LogMetaData.clear (_md : LogMetaData) : LogMetaData := ⟨[]⟩

/-- Helper for the set-level display rendering: the fold of
`operator<<(std::ostream&, const LogMetaData&)`
(src/log/logwriter.hpp lines 117-133), carrying the `first` flag:
skipped entries are passed over, every rendered entry after the first is
preceded by a comma separator. -/
def LogMetaData.displayFold : List LogMetaDataValue → Bool → String
  | [], _ => ""
  | mdv :: rest, first =>
    if mdv.skip then
      LogMetaData.displayFold rest first
    else
      (if !first then ", " else "") ++ mdv.display
        ++ LogMetaData.displayFold rest false

/-- The set-level display rendering `operator<<(std::ostream&,
const LogMetaData&)` (src/log/logwriter.hpp lines 117-133), as written
into a stream by `dest << metadata`. -/
def LogMetaData.toDisplayString (md : LogMetaData) : String :=
  LogMetaData.displayFold md.metadata true

/-- Modelled from the spec: `LogGroup` (src/log/logevent.hpp is not part
of the sources given).  The spec describes a group as a subsystem tag for
a log event, independent of severity; `LogGroup::UNDEFINED` is named by
the code under src/ (src/log/logwriter.cpp line 323). -/
inductive LogGroup where
  | UNDEFINED
  | SESSIONMGR
  | BACKENDPROC
  | CLIENT
deriving DecidableEq

/-- Modelled from the spec: `LogCategory` (src/log/logevent.hpp is not
part of the sources given).  The spec's glossary gives a total severity
order DEBUG < INFO < WARN < ERROR < CRIT < FATAL; the code under src/
names `LogCategory::INFO` and `LogCategory::FATAL` and compares
categories with the underlying enum order. -/
inductive LogCategory where
  | UNDEFINED
  | DEBUG
  | VERB2
  | VERB1
  | INFO
  | WARN
  | ERROR
  | CRIT
  | FATAL
deriving DecidableEq

/-- The underlying enum value of a `LogCategory`, in the spec's severity
order, used for the C++ `<` comparison between categories. -/
def LogCategory.code : LogCategory → Nat
  | .UNDEFINED => 0
  | .DEBUG => 1
  | .VERB2 => 2
  | .VERB1 => 3
  | .INFO => 4
  | .WARN => 5
  | .ERROR => 6
  | .CRIT => 7
  | .FATAL => 8

/-- The C++ comparison `a < b` on `LogCategory` enum values. -/
def LogCategory.lt (a b : LogCategory) : Bool := a.code < b.code

/-- Modelled from the spec: the textual name of a `LogGroup`, used by
`LogEvent::GetLogGroupStr()` (src/log/logevent.hpp is not part of the
sources given). -/
def LogGroup.str : LogGroup → String
  | .UNDEFINED => "[[UNDEFINED]]"
  | .SESSIONMGR => "Session Manager"
  | .BACKENDPROC => "Backend Session Process"
  | .CLIENT => "Client"

/-- Modelled from the spec: the textual name of a `LogCategory`, used by
`LogEvent::GetLogCategoryStr()` (src/log/logevent.hpp is not part of the
sources given). -/
def LogCategory.str : LogCategory → String
  | .UNDEFINED => "[[UNDEFINED]]"
  | .DEBUG => "DEBUG"
  | .VERB2 => "VERB2"
  | .VERB1 => "VERB1"
  | .INFO => "INFO"
  | .WARN => "WARNING"
  | .ERROR => "ERROR"
  | .CRIT => "CRITICAL"
  | .FATAL => "FATAL"

/-- Modelled from the spec: `LogEvent` (src/log/logevent.hpp is not part
of the sources given).  The spec's data model gives it a group, a
severity category, a message and an optional session token; the
three-argument construction `LogEvent(grp, ctg, data)` used by
src/log/logwriter.cpp leaves the session token empty. -/
structure LogEvent where
  group : LogGroup
  category : LogCategory
  message : String
  session_token : String

/-- The `LogEvent(grp, ctg, data)` construction used at
src/log/logwriter.cpp lines 323-324 and 333: empty session token. -/
def LogEvent.mk3 (grp : LogGroup) (ctg : LogCategory) (data : String) : LogEvent :=
  ⟨grp, ctg, data, ""⟩

/-- Modelled from the spec: `LogPrefix(grp, ctg)` (declared outside the
given sources; src/log/logwriter.hpp line 233 composes it before the
message).  The spec says backends prefix the line with textual
group/category information. -/
def LogPfx (grp : LogGroup) (ctg : LogCategory) : String :=
  grp.str ++ " " ++ ctg.str ++ ": "

/-- Modelled from the spec: `GetTimestamp()` (common/timestamp.hpp is
not part of the sources given); a fixed placeholder stands for the
wall-clock timestamp string, which no claim depends on. -/
def GetTimestamp : String := "1970-01-01 00:00:00"

/-- The mutable state of the abstract `LogWriter` base class
(src/log/logwriter.hpp lines 315-321): the timestamp and metadata
enable flags, the pending metadata set, the message-prepend enable flag
(`prepend_prefix`), the sticky prepend label and the one-shot
prepend-to-meta-line flag. -/
structure LogWriterState where
  timestamp : Bool
  log_meta : Bool
  metadata : LogMetaData
  prepend_pfx : Bool
  prepend_label : String
  prepend_meta : Bool

/-- The member initialisers of `LogWriter` (src/log/logwriter.hpp lines
315-321): timestamps on, metadata logging on, empty metadata set,
message prepend on, empty sticky label, one-shot flag off. -/
def LogWriterState.init : LogWriterState :=
  { timestamp := true, log_meta := true, metadata := LogMetaData.mk0,
    prepend_pfx := true, prepend_label := "", prepend_meta := false }

/-- `LogWriter::EnableTimestamp` (src/log/logwriter.hpp lines 160-163). -/
def LogWriterState.EnableTimestamp (s : LogWriterState) (tstamp : Bool) : LogWriterState :=
  { s with timestamp := tstamp }

/-- `LogWriter::EnableLogMeta` (src/log/logwriter.hpp lines 177-180). -/
def LogWriterState.EnableLogMeta (s : LogWriterState) (meta : Bool) : LogWriterState :=
  { s with log_meta := meta }

/-- `LogWriter::EnableMessagePrepend` (src/log/logwriter.hpp lines
188-191). -/
def LogWriterState.EnableMessagePrepend (s : LogWriterState) (mp : Bool) : LogWriterState :=
  { s with prepend_pfx := mp }

/-- `LogWriter::AddMeta` for the string overload (src/log/logwriter.hpp
lines 271-278): appends to the pending metadata set only when metadata
logging is enabled. -/
def LogWriterState.AddMetaStr (s : LogWriterState) (label data : String)
    (skip : Bool) : LogWriterState :=
  if s.log_meta then
    { s with metadata := s.metadata.AddMetaStr label data skip }
  else
    s

/-- `LogWriter::AddMeta` for the `LogTag` overload (src/log/logwriter.hpp
lines 281-288): appends to the pending metadata set only when metadata
logging is enabled (the `encaps` argument is accepted and unused, as in
the source). -/
def LogWriterState.AddMetaTag (s : LogWriterState) (label : String) (ltg : LogTag)
    (skip : Bool) (_encaps : Bool) : LogWriterState :=
  if s.log_meta then
    { s with metadata := s.metadata.AddMetaTag label ltg skip }
  else
    s

/-- `LogWriter::PrependMeta` (src/log/logwriter.hpp lines 308-312). -/
def LogWriterState.PrependMeta (s : LogWriterState) (label : String)
    (prep_meta : Bool) : LogWriterState :=
  { s with prepend_label := label, prepend_meta := prep_meta }

/-- `StreamLogWriter::Write(data, colour_init, colour_reset)`
(src/log/logwriter.cpp lines 158-183), returning the new writer state
and the text appended to the destination stream.  When metadata logging
is on and the set is non-empty, a metadata line is emitted first
(with the prepend value when the one-shot flag is set) and the one-shot
flag is cleared; the message line resolves the sticky label when
non-empty; finally the sticky label and the metadata set are cleared. -/
def StreamLogWriter.WriteStr (s : LogWriterState) (data colour_init colour_reset : String) :
    LogWriterState × String :=
  let metaBranch := s.log_meta && !s.metadata.empty
  let out1 :=
    if metaBranch then
      (if s.timestamp then GetTimestamp else "") ++ " " ++ colour_init
        ++ (if s.prepend_meta then s.metadata.GetMetaValue s.prepend_label true " " else "")
        ++ s.metadata.toDisplayString ++ colour_reset ++ "\n"
    else ""
  let s1 := if metaBranch then { s with prepend_meta := false } else s
  let out2 :=
    (if s1.timestamp then GetTimestamp else "") ++ " " ++ colour_init
      ++ (if !s1.prepend_label.isEmpty then s1.metadata.GetMetaValue s1.prepend_label true " " else "")
      ++ data ++ colour_reset ++ "\n"
  ({ s1 with prepend_label := "", metadata := s1.metadata.clear }, out1 ++ out2)

/-- The base-class overload `LogWriter::Write(grp, ctg, data,
colour_init, colour_reset)` (src/log/logwriter.hpp lines 228-234) as
inherited by `StreamLogWriter`: formats the group/category prefix into
the single-string overload. -/
def StreamLogWriter.WriteGC (s : LogWriterState) (grp : LogGroup) (ctg : LogCategory)
    (data colour_init colour_reset : String) : LogWriterState × String :=
  StreamLogWriter.WriteStr s (LogPfx grp ctg ++ data) colour_init colour_reset

/-- `ColourEngine::ColourMode` (colourengine.hpp is outside the given
sources; the three switch arms of `ColourStreamWriter::Write` in
src/log/logwriter.cpp lines 199-221 distinguish by-category, by-group
and the default arm). -/
inductive ColourMode where
  | BY_CATEGORY
  | BY_GROUP
  | NONE
deriving DecidableEq

/-- Modelled from the spec: the `ColourEngine` collaborator
(colourengine.hpp is outside the given sources).  The spec describes it
as supplying colour escape codes by severity category or by group, a
reset code, and the active colour mode. -/
structure ColourEngine where
  mode : ColourMode
  colourByCategory : LogCategory → String
  colourByGroup : LogGroup → String
  resetCode : String

/-- `ColourStreamWriter::Write(grp, ctg, data)` (src/log/logwriter.cpp
lines 195-222): by-category mode passes the category colour; by-group
mode prefixes the data with the group colour and passes the category
colour exactly when the category lies strictly above
`LogCategory::INFO`, else the group colour; the default arm passes no
colour at all (`LogWriter::Write(grp, ctg, data)` forwards empty colour
strings, src/log/logwriter.hpp lines 246-250). -/
def ColourStreamWriter.Write (ce : ColourEngine) (s : LogWriterState)
    (grp : LogGroup) (ctg : LogCategory) (data : String) : LogWriterState × String :=
  match ce.mode with
  | .BY_CATEGORY =>
      StreamLogWriter.WriteGC s grp ctg data (ce.colourByCategory ctg) ce.resetCode
  | .BY_GROUP =>
      let grpcol := ce.colourByGroup grp
      let ctgcol := if LogCategory.lt .INFO ctg then ce.colourByCategory ctg else grpcol
      StreamLogWriter.WriteGC s grp ctg (grpcol ++ data) ctgcol ce.resetCode
  | .NONE =>
      StreamLogWriter.WriteGC s grp ctg data "" ""

/-- Modelled from the spec: the syslog priority constant `LOG_INFO`
(value 6 in `<syslog.h>`, outside the given sources). -/
def LOG_INFO : Nat := 6

/-- Modelled from the spec: `logcatg2syslog` (declared outside the given
sources; used at src/log/logwriter.cpp lines 292 and 297).  The spec
requires a fixed total map from severity categories to syslog priority
levels; the numeric values are the standard `<syslog.h>` priorities. -/
def logcatg2syslog : LogCategory → Nat
  | .UNDEFINED => LOG_INFO
  | .DEBUG => 7
  | .VERB2 => LOG_INFO
  | .VERB1 => LOG_INFO
  | .INFO => LOG_INFO
  | .WARN => 4
  | .ERROR => 3
  | .CRIT => 2
  | .FATAL => 1

/-- `SyslogWriter::Write(data, colour_init, colour_reset)`
(src/log/logwriter.cpp lines 249-273), returning the new writer state
and the sequence of `syslog(priority, message)` calls issued.  The
prepend value is computed up front from the one-shot flag; a metadata
line goes out first (priority `LOG_INFO`) when metadata logging is on
and the set is non-empty, clearing the one-shot flag; the message line
always goes out; the sticky label and the metadata set are cleared. -/
def SyslogWriter.WriteStr (s : LogWriterState) (data _colour_init _colour_reset : String) :
    LogWriterState × List (Nat × String) :=
  let p := if s.prepend_meta then s.metadata.GetMetaValue s.prepend_label true " " else ""
  let metaBranch := s.log_meta && !s.metadata.empty
  let calls1 :=
    if metaBranch then [(LOG_INFO, p ++ s.metadata.toDisplayString)] else []
  let s1 := if metaBranch then { s with prepend_meta := false } else s
  let calls2 := [(LOG_INFO, p ++ data)]
  ({ s1 with prepend_label := "", metadata := s1.metadata.clear }, calls1 ++ calls2)

/-- `SyslogWriter::Write(grp, ctg, data, colour_init, colour_reset)`
(src/log/logwriter.cpp lines 276-301): same shape as the single-string
overload, with `logcatg2syslog(ctg)` as the priority and the
group/category prefix before the message body. -/
def SyslogWriter.WriteGC (s : LogWriterState) (grp : LogGroup) (ctg : LogCategory)
    (data _colour_init _colour_reset : String) : LogWriterState × List (Nat × String) :=
  let p := if s.prepend_meta then s.metadata.GetMetaValue s.prepend_label true " " else ""
  let metaBranch := s.log_meta && !s.metadata.empty
  let calls1 :=
    if metaBranch then [(logcatg2syslog ctg, p ++ s.metadata.toDisplayString)] else []
  let s1 := if metaBranch then { s with prepend_meta := false } else s
  let calls2 := [(logcatg2syslog ctg, p ++ LogPfx grp ctg ++ data)]
  ({ s1 with prepend_label := "", metadata := s1.metadata.clear }, calls1 ++ calls2)

/-- `JournaldWriter::Write(const LogEvent&)` (src/log/logwriter.cpp
lines 336-390), returning the new writer state and the list of
`KEY=value` field strings submitted as one structured journal record:
an `O3_`-namespaced field per metadata record (labels upcased, tags
unencapsulated), a session-token field only when the event carries one,
the group field, the category field, and the message field (prefixed
with the resolved sticky value when both the message-prepend enable and
the one-shot flag are set).  The sticky label and the metadata set are
cleared at the end; the one-shot flag is left untouched. -/
def JournaldWriter.WriteEvent (s : LogWriterState) (event : LogEvent) :
    LogWriterState × List String :=
  let recs := (s.metadata.GetMetaDataRecords true false).map (fun r => "O3_" ++ r)
  let tok :=
    if !event.session_token.isEmpty then
      ["O3_SESSION_TOKEN=" ++ event.session_token]
    else []
  let lg := "O3_LOG_GROUP=" ++ event.group.str
  let lc := "O3_LOG_CATEGORY=" ++ event.category.str
  let m := "MESSAGE="
      ++ (if s.prepend_pfx && s.prepend_meta then
            s.metadata.GetMetaValue s.prepend_label true " "
          else "")
      ++ event.message
  ({ s with prepend_label := "", metadata := s.metadata.clear },
   recs ++ tok ++ [lg, lc, m])

/-- `JournaldWriter::Write(data, colour_init, colour_reset)`
(src/log/logwriter.cpp lines 319-325): wraps the data in a
`LogEvent(LogGroup::UNDEFINED, LogCategory::INFO, data)` and forwards to
the event overload; the colour arguments are ignored. -/
def JournaldWriter.WriteStr (s : LogWriterState) (data _colour_init _colour_reset : String) :
    LogWriterState × List String :=
  JournaldWriter.WriteEvent s (LogEvent.mk3 .UNDEFINED .INFO data)

/-- `JournaldWriter::Write(grp, ctg, data, colour_init, colour_reset)`
(src/log/logwriter.cpp lines 328-334): wraps the arguments in a
`LogEvent` and forwards to the event overload. -/
def JournaldWriter.WriteGC (s : LogWriterState) (grp : LogGroup) (ctg : LogCategory)
    (data _colour_init _colour_reset : String) : LogWriterState × List String :=
  JournaldWriter.WriteEvent s (LogEvent.mk3 grp ctg data)

/-- The payload built by `RegistrationRequest::Send`
(src/client/backend-signals.hpp lines 57-60): a `(ssi)` tuple of bus
name, session token and process id. -/
structure RegPayload where
  busname : String
  token : String
  pid : Int
deriving DecidableEq

/-- The behaviour of the external `EmitSignal` call on a given payload
(gdbuspp is outside the given sources): it either returns a boolean
result or raises a `DBus::Signals::Exception` carrying a message. -/
inductive EmitOutcome where
  | ok (b : Bool)
  | exn (msg : String)
deriving DecidableEq

/-- `Backend::Signals::RegistrationRequest::Send(busname, token, pid)`
(src/client/backend-signals.hpp lines 53-72), returning the boolean
result together with the lines printed to the diagnostic stream
(`std::cerr`).  The payload is built from the three arguments and handed
to `EmitSignal`; a `DBus::Signals::Exception` is caught, reported to the
diagnostic stream, and the call returns `false`; otherwise the emit
result is returned unchanged. -/
def RegistrationRequest.Send (emitter : RegPayload → EmitOutcome)
    (busname token : String) (pid : Int) : Bool × List String :=
  let b : RegPayload := ⟨busname, token, pid⟩
  match emitter b with
  | .ok r => (r, [])
  | .exn m => (false, ["RegistrationRequest::Send() EXCEPTION:" ++ m])

/-- The state of a `BackendSignals` object (src/client/backend-signals.hpp
lines 77-215) as far as the fatal path is concerned: the log group and
session token fixed at construction, the log events handed to
`LogSender::Log` so far (each re-tagged with the session token), the
`delayed_shutdown` handle (`std::unique_ptr<std::thread>`, holding at most
the most recently constructed timer thread, identified here by a serial
number), and a ghost counter of how many timer threads have ever been
constructed by `new std::thread(...)` — each such construction starts an
independently running 3-second termination timer. -/
structure BackendSignalsState where
  log_group : LogGroup
  session_token : String
  sent_logs : List LogEvent
  delayed_shutdown : Option Nat
  timers_started : Nat

/-- The constructor state of `BackendSignals`
(src/client/backend-signals.hpp lines 82-117): no log events sent, no
delayed-shutdown thread. -/
def BackendSignalsState.init (lgroup : LogGroup) (token : String) : BackendSignalsState :=
  { log_group := lgroup, session_token := token, sent_logs := [],
    delayed_shutdown := none, timers_started := 0 }

/-- `BackendSignals::Log(logev, ...)` (src/client/backend-signals.hpp
lines 150-156): re-tags the event with the owning session token
(`Events::Log l(logev, session_token)`) and hands it on to
`LogSender::Log`. -/
def BackendSignals.Log (s : BackendSignalsState) (logev : LogEvent) : BackendSignalsState :=
  { s with sent_logs := s.sent_logs ++ [{ logev with session_token := s.session_token }] }

/-- `BackendSignals::LogFATAL(msg)` (src/client/backend-signals.hpp
lines 164-175): sends a FATAL log event for the object's log group, then
unconditionally constructs a new timer thread (sleep 3 seconds, then
`kill(getpid(), SIGHUP)`) and stores it into `delayed_shutdown` via
`unique_ptr::reset`, dropping the handle to any previously constructed
timer.  There is no test of whether a timer is already in flight. -/
def BackendSignals.LogFATAL (s : BackendSignalsState) (msg : String) : BackendSignalsState :=
  let s1 := BackendSignals.Log s (LogEvent.mk3 s.log_group .FATAL msg)
  { s1 with delayed_shutdown := some s1.timers_started,
            timers_started := s1.timers_started + 1 }

/-- First-match behaviour of `List.find?` on a decomposed list: when no
element of the first part satisfies the predicate and `e` does, the scan
returns `e`. -/
theorem find_first_of_append {α : Type} (p : α → Bool) :
    ∀ (pre : List α) (e : α) (suf : List α),
      (∀ x ∈ pre, p x = false) → p e = true →
      (pre ++ e :: suf).find? p = some e
  | [], e, suf, _, he => by simp [List.find?_cons, he]
  | x :: xs, e, suf, hpre, he => by
    have hx : p x = false := hpre x (by simp)
    have ih := find_first_of_append p xs e suf
      (fun y hy => hpre y (by simp [hy])) he
    simpa [List.find?_cons, hx] using ih

/-- C1: for every `Write` call on every concrete backend
(`StreamLogWriter`, `SyslogWriter`, `JournaldWriter`, each overload) and
every prior writer state, the writer's metadata set is empty when the
call returns, regardless of whether metadata entries were attached
before the call. -/
theorem C1_write_clears_metadata (s : LogWriterState) (data ci cr : String)
    (grp : LogGroup) (ctg : LogCategory) (ev : LogEvent) :
    (StreamLogWriter.WriteStr s data ci cr).1.metadata.empty = true ∧
    (StreamLogWriter.WriteGC s grp ctg data ci cr).1.metadata.empty = true ∧
    (SyslogWriter.WriteStr s data ci cr).1.metadata.empty = true ∧
    (SyslogWriter.WriteGC s grp ctg data ci cr).1.metadata.empty = true ∧
    (JournaldWriter.WriteStr s data ci cr).1.metadata.empty = true ∧
    (JournaldWriter.WriteGC s grp ctg data ci cr).1.metadata.empty = true ∧
    (JournaldWriter.WriteEvent s ev).1.metadata.empty = true := by
  refine ⟨?_, ?_, ?_, ?_, ?_, ?_, ?_⟩ <;>
    simp [StreamLogWriter.WriteStr, StreamLogWriter.WriteGC, SyslogWriter.WriteStr,
          SyslogWriter.WriteGC, JournaldWriter.WriteStr, JournaldWriter.WriteGC,
          JournaldWriter.WriteEvent, LogMetaData.clear, LogMetaData.empty]

/-- C2: evaluation at the failing input.  After `PrependMeta("user",
true)` on a fresh writer, `JournaldWriter::Write` returns with the
one-shot `prepend_meta` flag still `true` (the function never resets it),
although the sticky label is cleared; `StreamLogWriter::Write` likewise
leaves the flag `true` when no metadata line is emitted.  This
contradicts the claimed invariant and the documentation of
`LogWriter::PrependMeta` in src/log/logwriter.hpp, which states the flag
is reset on each `Write` operation. -/
theorem C2_prepend_meta_survives_write :
    ((JournaldWriter.WriteEvent
        (LogWriterState.PrependMeta LogWriterState.init "user" true)
        (LogEvent.mk3 .CLIENT .INFO "hello")).1.prepend_meta = true) ∧
    ((JournaldWriter.WriteEvent
        (LogWriterState.PrependMeta LogWriterState.init "user" true)
        (LogEvent.mk3 .CLIENT .INFO "hello")).1.prepend_label = "") ∧
    ((StreamLogWriter.WriteStr
        (LogWriterState.PrependMeta LogWriterState.init "user" true)
        "hello" "" "").1.prepend_meta = true) :=
  ⟨rfl, rfl, rfl⟩

/-- C3, counterexample: a set holding exactly one entry whose skip flag
is `true` still yields that entry from `GetMetaDataRecords` — the loop
(src/log/logwriter.cpp lines 99-121) never tests the skip flag, so the
claimed exclusion of skip-marked entries fails. -/
theorem C3_skip_entry_still_rendered :
    (LogMetaData.mk0.AddMetaStr "ip" "10.0.0.1" true).GetMetaDataRecords true false
      ≠ [] := by decide

/-- C3, amended: `GetMetaDataRecords` returns one `LABEL=value` record
per entry (labels upcased on request, tag values rendered with the given
encapsulation flag, literal values verbatim), in insertion order —
appending an entry appends exactly its record, whatever its skip flag —
and excludes nothing: the record list is as long as the set. -/
theorem C3_records_in_insertion_order (md : LogMetaData) (l v : String)
    (t : LogTag) (sk up enc : Bool) :
    (md.AddMetaStr l v sk).GetMetaDataRecords up enc
      = md.GetMetaDataRecords up enc ++ [(if up then l.toUpper else l) ++ "=" ++ v] ∧
    (md.AddMetaTag l t sk).GetMetaDataRecords up enc
      = md.GetMetaDataRecords up enc ++ [(if up then l.toUpper else l) ++ "=" ++ t.str enc] ∧
    (md.GetMetaDataRecords up enc).length = md.size := by
  refine ⟨?_, ?_, ?_⟩ <;>
    simp [LogMetaData.GetMetaDataRecords, LogMetaData.AddMetaStr, LogMetaData.AddMetaTag,
          LogMetaDataValue.mkString, LogMetaDataValue.mkTag, LogMetaDataValue.GetValue,
          LogMetaData.size]

/-- C4, counterexample: with the C++ default arguments (`encaps_logtag =
true`, postfix a single space, src/log/logwriter.hpp lines 106-107), the
lookup of a stored literal `alice` yields `alice ` — the value followed
by a space, not by an empty postfix as claimed. -/
theorem C4_default_postfix_is_space :
    (LogMetaData.mk0.AddMetaStr "user" "alice" false).GetMetaValue "user" true " "
      = "alice " ∧
    ("alice " : String) ≠ "alice" :=
  ⟨rfl, by decide⟩

/-- C4, amended: `GetMetaValue` scans in insertion order and returns the
rendered value of the first entry whose label matches, concatenated with
the postfix — whose C++ default is a single space, not the empty string
— and returns the empty string (with no postfix attached) when no
entry's label matches. -/
theorem C4_first_match_lookup (md : LogMetaData) (l : String) (enc : Bool)
    (pfix : String) :
    ((∀ e ∈ md.metadata, e.label ≠ l) → md.GetMetaValue l enc pfix = "") ∧
    (∀ pre e suf, md.metadata = pre ++ e :: suf →
       (∀ x ∈ pre, x.label ≠ l) → e.label = l →
       md.GetMetaValue l enc pfix = e.GetValue enc ++ pfix) := by
  constructor
  · intro h
    have hnone : md.metadata.find? (fun e => l == e.label) = none := by
      rw [List.find?_eq_none]
      intro x hx
      simpa using (h x hx).symm
    simp [LogMetaData.GetMetaValue, hnone]
  · intro pre e suf hsplit hpre he
    have hsome : md.metadata.find? (fun x => l == x.label) = some e := by
      rw [hsplit]
      refine find_first_of_append _ pre e suf (fun x hx => ?_) (by simp [he])
      simpa using (hpre x hx).symm
    simp [LogMetaData.GetMetaValue, hsome]

/-- C4, witness for the amended theorem: on a set holding only
`user=alice`, a lookup of an absent label gives the empty string and the
lookup of `user` with the default postfix gives the stored value plus a
space. -/
theorem C4_first_match_lookup_witness :
    (LogMetaData.mk0.AddMetaStr "user" "alice" false).GetMetaValue "zzz" true " " = "" ∧
    (LogMetaData.mk0.AddMetaStr "user" "alice" false).GetMetaValue "user" true " "
      = (LogMetaDataValue.mkString "user" "alice" false).GetValue true ++ " " := by
  constructor
  · exact (C4_first_match_lookup (LogMetaData.mk0.AddMetaStr "user" "alice" false)
      "zzz" true " ").1 (by decide)
  · exact (C4_first_match_lookup (LogMetaData.mk0.AddMetaStr "user" "alice" false)
      "user" true " ").2 [] (LogMetaDataValue.mkString "user" "alice" false) []
      rfl (by simp) rfl

/-- C5: `RegistrationRequest::Send` returns a success boolean to its
caller: when the emit raises a delivery exception, the exception is
caught, a diagnostic line is written to the error stream and the call
returns `false`; when the emit succeeds, its boolean result is returned
unchanged.  Totality of the embedded function expresses that no
exception propagates out of `Send`. -/
theorem C5_registration_send_contract (emitter : RegPayload → EmitOutcome)
    (busname token : String) (pid : Int) :
    (∀ m, emitter ⟨busname, token, pid⟩ = .exn m →
       RegistrationRequest.Send emitter busname token pid
         = (false, ["RegistrationRequest::Send() EXCEPTION:" ++ m])) ∧
    (∀ b, emitter ⟨busname, token, pid⟩ = .ok b →
       RegistrationRequest.Send emitter busname token pid = (b, [])) := by
  constructor <;> intro x h <;> simp [RegistrationRequest.Send, h]

/-- C5, witness: a failing emitter makes `Send` return `false` with a
diagnostic line; a succeeding emitter's result is passed through. -/
theorem C5_registration_send_contract_witness :
    RegistrationRequest.Send (fun _ => .exn "fail") "bus" "tok" 7
      = (false, ["RegistrationRequest::Send() EXCEPTION:" ++ "fail"]) ∧
    RegistrationRequest.Send (fun _ => .ok true) "bus" "tok" 7 = (true, []) := by
  constructor
  · exact (C5_registration_send_contract (fun _ => .exn "fail") "bus" "tok" 7).1 "fail" rfl
  · exact (C5_registration_send_contract (fun _ => .ok true) "bus" "tok" 7).2 true rfl

/-- C6, counterexample: one `LogFATAL` call constructs one timer thread,
but a second call before the first fires constructs a second one — the
code (src/client/backend-signals.hpp lines 164-175) resets the
`delayed_shutdown` pointer unconditionally, with no in-flight guard, so
the claim that the second call starts no second timer is false. -/
theorem C6_second_logfatal_starts_second_timer :
    (BackendSignals.LogFATAL (BackendSignalsState.init .CLIENT "tok") "first").timers_started
      = 1 ∧
    (BackendSignals.LogFATAL (BackendSignals.LogFATAL
        (BackendSignalsState.init .CLIENT "tok") "first") "second").timers_started = 2 ∧
    (2 : Nat) ≠ 1 :=
  ⟨rfl, rfl, by decide⟩

/-- C6, amended: every `LogFATAL` call starts exactly one new
termination timer thread and stores its handle into `delayed_shutdown`,
dropping the handle to any earlier timer; in particular two consecutive
calls start two timers.  Nothing bounds the number of timers started to
one per instance. -/
theorem C6_logfatal_always_spawns_timer (s : BackendSignalsState) (msg msg2 : String) :
    (BackendSignals.LogFATAL s msg).timers_started = s.timers_started + 1 ∧
    (BackendSignals.LogFATAL s msg).delayed_shutdown = some s.timers_started ∧
    (BackendSignals.LogFATAL (BackendSignals.LogFATAL s msg) msg2).timers_started
      = s.timers_started + 2 :=
  ⟨rfl, rfl, rfl⟩

/-- C7: in by-group colour mode, `ColourStreamWriter::Write` passes the
category colour as the line's initial colour exactly when the event's
category lies strictly above `LogCategory::INFO`, and the group colour
otherwise (the group colour is additionally spliced before the message
body); in by-category mode the category colour is always passed. -/
theorem C7_colour_mode_selection (ce : ColourEngine) (s : LogWriterState)
    (grp : LogGroup) (ctg : LogCategory) (data : String) :
    (ce.mode = .BY_GROUP →
       ColourStreamWriter.Write ce s grp ctg data
         = StreamLogWriter.WriteGC s grp ctg (ce.colourByGroup grp ++ data)
             (if LogCategory.lt .INFO ctg then ce.colourByCategory ctg
              else ce.colourByGroup grp)
             ce.resetCode) ∧
    (ce.mode = .BY_CATEGORY →
       ColourStreamWriter.Write ce s grp ctg data
         = StreamLogWriter.WriteGC s grp ctg data (ce.colourByCategory ctg)
             ce.resetCode) := by
  obtain ⟨mode, cbc, cbg, rst⟩ := ce
  constructor <;> intro h <;> subst h <;> rfl

/-- C7, witness: with a concrete engine, group `CLIENT` and category
`ERROR` (above INFO) in by-group mode the category colour is applied,
and in by-category mode with category `DEBUG` the category colour is
applied. -/
theorem C7_colour_mode_selection_witness :
    (ColourStreamWriter.Write ⟨.BY_GROUP, fun _ => "CAT", fun _ => "GRP", "RST"⟩
        LogWriterState.init .CLIENT .ERROR "msg"
      = StreamLogWriter.WriteGC LogWriterState.init .CLIENT .ERROR ("GRP" ++ "msg")
          (if LogCategory.lt .INFO .ERROR then "CAT" else "GRP") "RST") ∧
    (ColourStreamWriter.Write ⟨.BY_CATEGORY, fun _ => "CAT", fun _ => "GRP", "RST"⟩
        LogWriterState.init .CLIENT .DEBUG "msg"
      = StreamLogWriter.WriteGC LogWriterState.init .CLIENT .DEBUG "msg" "CAT" "RST") := by
  constructor
  · exact (C7_colour_mode_selection ⟨.BY_GROUP, fun _ => "CAT", fun _ => "GRP", "RST"⟩
      LogWriterState.init .CLIENT .ERROR "msg").1 rfl
  · exact (C7_colour_mode_selection ⟨.BY_CATEGORY, fun _ => "CAT", fun _ => "GRP", "RST"⟩
      LogWriterState.init .CLIENT .DEBUG "msg").2 rfl

/-- C8: a metadata value built by the literal-string constructor renders
to the stored string under both encapsulation flags: the flag only
reaches the tag branch of `GetValue`. -/
theorem C8_literal_render_ignores_encaps (l v : String) (sk b : Bool) :
    (LogMetaDataValue.mkString l v sk).GetValue b = v ∧
    (LogMetaDataValue.mkString l v sk).GetValue true
      = (LogMetaDataValue.mkString l v sk).GetValue false :=
  ⟨rfl, rfl⟩

/-- C9: when metadata logging is disabled, both `AddMeta` overloads of
the writer are identity on the writer state, so a lookup of the added
label still returns the empty string when it was absent before. -/
theorem C9_addmeta_noop_when_disabled (s : LogWriterState) (l v : String)
    (t : LogTag) (sk en enc : Bool) (pfix : String)
    (hm : s.log_meta = false)
    (habs : s.metadata.GetMetaValue l enc pfix = "") :
    s.AddMetaStr l v sk = s ∧
    s.AddMetaTag l t sk en = s ∧
    ((s.AddMetaStr l v sk).AddMetaTag l t sk en).metadata.GetMetaValue l enc pfix
      = "" := by
  have h1 : s.AddMetaStr l v sk = s := by
    simp [LogWriterState.AddMetaStr, hm]
  have h2 : s.AddMetaTag l t sk en = s := by
    simp [LogWriterState.AddMetaTag, hm]
  refine ⟨h1, h2, ?_⟩
  rw [h1, h2]
  exact habs

/-- C9, witness: on a fresh writer with metadata logging switched off,
adding `user=alice` (and a tag under the same label) changes nothing and
the lookup of `user` stays empty. -/
theorem C9_addmeta_noop_when_disabled_witness :
    ((LogWriterState.init.EnableLogMeta false).AddMetaStr "user" "alice" false
      = LogWriterState.init.EnableLogMeta false) ∧
    ((LogWriterState.init.EnableLogMeta false).AddMetaTag "user" LogTag.default false true
      = LogWriterState.init.EnableLogMeta false) ∧
    (((LogWriterState.init.EnableLogMeta false).AddMetaStr "user" "alice" false).AddMetaTag
        "user" LogTag.default false true).metadata.GetMetaValue "user" true " " = "" :=
  C9_addmeta_noop_when_disabled (LogWriterState.init.EnableLogMeta false)
    "user" "alice" LogTag.default false true true " " rfl rfl

/-- C10: every call of the single-string `JournaldWriter::Write`
overload submits a journal record whose field list carries the log-group
field for `LogGroup::UNDEFINED` and the category field for
`LogCategory::INFO`, whatever the data string and the colour arguments. -/
theorem C10_journald_default_group_category (s : LogWriterState)
    (data ci cr : String) :
    ("O3_LOG_GROUP=" ++ LogGroup.str .UNDEFINED)
        ∈ (JournaldWriter.WriteStr s data ci cr).2 ∧
    ("O3_LOG_CATEGORY=" ++ LogCategory.str .INFO)
        ∈ (JournaldWriter.WriteStr s data ci cr).2 := by
  constructor <;>
    simp [JournaldWriter.WriteStr, JournaldWriter.WriteEvent, LogEvent.mk3]
